import Mathlib

/-!
# Verification of the NavalX Salesforce carousel components

Shallow embedding of the two `relatedListCarousel` Lightning Web Component
variants and of the `sqlResultsTable` component, with proofs of the
properties stated in the repository specification.

Two carousel variants exist in the source:

* the *wrap-around* variant
  (`force-app/main/default/lwc/relatedListCarousel/relatedListCarousel.js`),
  whose `handleNext` / `handlePrevious` cycle through the cards, embedded
  here with the suffix `Wrap`;
* the *clamped* variant (the second `relatedListCarousel.js`, stack-from-top),
  whose `handleNext` / `handlePrevious` stop at the ends, embedded here with
  the suffix `Clamp`.

Component-field mutation is modelled by explicit state passing over
`CarouselState`; JavaScript numbers holding indices are modelled as `Int`.
-/

/-- One display field of a card, as built by the `addFlds.map` step of both
fetch handlers: `{ label, value, apiName, isImage }`. -/
structure FieldEntry where
  label : String
  value : Option String
  apiName : String
  isImage : Bool
deriving Repr, DecidableEq

/-- One card of `tableData`, as built by the fetch handlers:
`{ Id, title, url, fields }`, plus the wrap variant's recommendation
`score` (a JS number, modelled as an optional rational; absent in the
clamped variant's cards) and the display fields `cardClass`, `position`
and (wrap variant only) `isActive` written by `updateCardClasses`. -/
structure Card where
  Id : String
  title : String
  url : String
  fields : List FieldEntry
  score : Option Rat
  cardClass : String
  position : Int
  isActive : Bool
deriving Repr, DecidableEq

/-- The mutable component state shared by both carousel variants:
`@track tableData`, `@track error`, `@track currentIndex`. -/
structure CarouselState where
  tableData : List Card
  error : Option String
  currentIndex : Int
deriving Repr, DecidableEq

/-! ## Wrap-around variant (`relatedListCarousel.js`, RecommendationController) -/

/-- The `cardClass` string computed by the wrap variant's `updateCardClasses`
for the card at index `i`, with list length `len` and current index `cur`:
`position === 0` gives active; `position === 1` or the first card while on the
last gives middle; `position === 2`, the second card while on the last, or the
first card while on the second-to-last gives bottom; otherwise hidden. -/
def cardClassWrap (len cur i : Int) : String :=
  let position := i - cur
  if position = 0 then "record-card" ++ " card-active"
  else if position = 1 ∨ (cur = len - 1 ∧ i = 0) then "record-card" ++ " card-middle"
  else if position = 2 ∨ (cur = len - 1 ∧ i = 1) ∨ (cur = len - 2 ∧ i = 0) then
    "record-card" ++ " card-bottom"
  else "record-card" ++ " card-hidden"

/-- The wrap variant's `updateCardClasses`: maps over `tableData`, writing
`cardClass`, `position = index - currentIndex` and `isActive` on each card and
leaving every other card field to the object spread `...rec`. -/
def updateCardClassesWrap (s : CarouselState) : CarouselState :=
  { s with tableData := s.tableData.mapIdx fun index rec =>
      let position : Int := (index : Int) - s.currentIndex
      { rec with
        cardClass := cardClassWrap (s.tableData.length : Int) s.currentIndex (index : Int)
        position := position
        isActive := position = 0 } }

/-- The wrap variant's `handlePrevious`: no-op when `tableData.length <= 1`;
otherwise decrement `currentIndex`, cycling to the last item from 0, then
`updateCardClasses`. -/
def handlePreviousWrap (s : CarouselState) : CarouselState :=
  if (s.tableData.length : Int) ≤ 1 then s
  else
    updateCardClassesWrap <|
      if s.currentIndex > 0 then { s with currentIndex := s.currentIndex - 1 }
      else { s with currentIndex := (s.tableData.length : Int) - 1 }

/-- The wrap variant's `handleNext`: no-op when `tableData.length <= 1`;
otherwise increment `currentIndex`, cycling back to 0 from the last item, then
`updateCardClasses`. -/
def handleNextWrap (s : CarouselState) : CarouselState :=
  if (s.tableData.length : Int) ≤ 1 then s
  else
    updateCardClassesWrap <|
      if s.currentIndex < (s.tableData.length : Int) - 1 then
        { s with currentIndex := s.currentIndex + 1 }
      else { s with currentIndex := 0 }

/-- The success tail of the wrap variant's `fetchRecommendations` (`.then`
handler, after the `results.map` step has produced `cards`): clear `error`,
reset `currentIndex` to 0, recompute card classes. -/
def setCardsWrap (s : CarouselState) (cards : List Card) : CarouselState :=
  updateCardClassesWrap { s with tableData := cards, error := none, currentIndex := 0 }

/-- The rejected-promise data reaching the wrap variant's `.catch` handler:
`err.body?.message` and `err.message`, each possibly absent. -/
structure FetchErrorWrap where
  bodyMessage : Option String
  message : Option String
deriving Repr, DecidableEq

/-- JavaScript `a || b` on an optional string `a`: `b` when `a` is absent or
the empty string (falsy), otherwise `a`. -/
def jsStringOr (a : Option String) (b : String) : String :=
  match a with
  | some str => if str = "" then b else str
  | none => b

/-- The `.catch` handler of the wrap variant's `fetchRecommendations`:
`error = err.body?.message || err.message || 'Error fetching recommendations'`,
`tableData = []`, `currentIndex = 0`. -/
def fetchFailureWrap (s : CarouselState) (e : FetchErrorWrap) : CarouselState :=
  { s with
    error := some (jsStringOr e.bodyMessage
      (jsStringOr e.message "Error fetching recommendations"))
    tableData := []
    currentIndex := 0 }

/-! ## Clamped variant (the stack-from-top `relatedListCarousel.js`) -/

/-- The `cardClass` string computed by the clamped variant's
`updateCardClasses` for the card at index `i` with current index `cur`:
`position === 0` gives active, `-1` middle, `-2` bottom, otherwise hidden. -/
def cardClassClamp (cur i : Int) : String :=
  let position := i - cur
  if position = 0 then "record-card" ++ " card-active"
  else if position = -1 then "record-card" ++ " card-middle"
  else if position = -2 then "record-card" ++ " card-bottom"
  else "record-card" ++ " card-hidden"

/-- The clamped variant's `updateCardClasses`: maps over `tableData`, writing
`cardClass` and `position = index - currentIndex` on each card (no `isActive`)
and leaving every other card field to the object spread `...rec`. -/
def updateCardClassesClamp (s : CarouselState) : CarouselState :=
  { s with tableData := s.tableData.mapIdx fun index rec =>
      { rec with
        cardClass := cardClassClamp s.currentIndex (index : Int)
        position := (index : Int) - s.currentIndex } }

/-- The clamped variant's `handlePrevious`: decrement `currentIndex` and
recompute classes only when `currentIndex > 0`. -/
def handlePreviousClamp (s : CarouselState) : CarouselState :=
  if s.currentIndex > 0 then
    updateCardClassesClamp { s with currentIndex := s.currentIndex - 1 }
  else s

/-- The clamped variant's `handleNext`: increment `currentIndex` and recompute
classes only when `currentIndex < tableData.length - 1`. -/
def handleNextClamp (s : CarouselState) : CarouselState :=
  if s.currentIndex < (s.tableData.length : Int) - 1 then
    updateCardClassesClamp { s with currentIndex := s.currentIndex + 1 }
  else s

/-- The success tail of the clamped variant's `fetchAllRelatedRecords`
(`.then` handler, after `results.map` has produced `cards`): clear `error`,
start with the last card active (`currentIndex = Math.max(0, length - 1)`),
recompute card classes. -/
def setCardsClamp (s : CarouselState) (cards : List Card) : CarouselState :=
  updateCardClassesClamp
    { s with
      tableData := cards
      error := none
      currentIndex := max 0 ((cards.length : Int) - 1) }

/-- The rejected-promise data reaching the clamped variant's `.catch` handler:
`err.body && err.body.message` (possibly absent or empty) and the fallback
`JSON.stringify(err)` rendering of the error. -/
structure FetchErrorClamp where
  bodyMessage : Option String
  stringified : String
deriving Repr, DecidableEq

/-- The `.catch` handler of the clamped variant's `fetchAllRelatedRecords`:
`error = err.body && err.body.message ? err.body.message : JSON.stringify(err)`,
`tableData = []`, `currentIndex = 0`. -/
def fetchFailureClamp (s : CarouselState) (e : FetchErrorClamp) : CarouselState :=
  { s with
    error := some (match e.bodyMessage with
      | some str => if str = "" then e.stringified else str
      | none => e.stringified)
    tableData := []
    currentIndex := 0 }

/-- A concrete card used by the witness theorems. -/
def sampleCard : Card :=
  { Id := "001", title := "A", url := "/001", fields := [], score := none
    cardClass := "record-card", position := 0, isActive := false }

/-- A concrete three-card wrap-variant state used by the witness theorems
(the spec's `[A,B,C]` example). -/
def sampleState3 : CarouselState :=
  { tableData := [sampleCard, { sampleCard with Id := "002" },
      { sampleCard with Id := "003" }]
    error := none, currentIndex := 0 }

/-! ## Basic frame lemmas -/

theorem length_updateCardClassesWrap (s : CarouselState) :
    (updateCardClassesWrap s).tableData.length = s.tableData.length := by
  simp [updateCardClassesWrap]

theorem currentIndex_updateCardClassesWrap (s : CarouselState) :
    (updateCardClassesWrap s).currentIndex = s.currentIndex := rfl

theorem length_updateCardClassesClamp (s : CarouselState) :
    (updateCardClassesClamp s).tableData.length = s.tableData.length := by
  simp [updateCardClassesClamp]

theorem currentIndex_updateCardClassesClamp (s : CarouselState) :
    (updateCardClassesClamp s).currentIndex = s.currentIndex := rfl

theorem length_handleNextWrap (s : CarouselState) :
    (handleNextWrap s).tableData.length = s.tableData.length := by
  unfold handleNextWrap
  split_ifs <;> simp [length_updateCardClassesWrap]

theorem length_handlePreviousWrap (s : CarouselState) :
    (handlePreviousWrap s).tableData.length = s.tableData.length := by
  unfold handlePreviousWrap
  split_ifs <;> simp [length_updateCardClassesWrap]

theorem length_handleNextClamp (s : CarouselState) :
    (handleNextClamp s).tableData.length = s.tableData.length := by
  unfold handleNextClamp
  split_ifs <;> simp [length_updateCardClassesClamp]

theorem length_handlePreviousClamp (s : CarouselState) :
    (handlePreviousClamp s).tableData.length = s.tableData.length := by
  unfold handlePreviousClamp
  split_ifs <;> simp [length_updateCardClassesClamp]

/-! ## Index-evolution lemmas -/

/-- For an integer strictly between `-N` and `N`, `emod` is either the
identity or a single shift by `N`. -/
theorem emod_of_small (d N : Int) (h1 : -N < d) (h2 : d < N) :
    d % N = if 0 ≤ d then d else d + N := by
  have hN : 0 < N := by omega
  split_ifs with h
  · exact Int.emod_eq_of_lt h h2
  · calc d % N = (d + N * 1) % N := by
          have := Int.add_mul_emod_self_left (a := d) (b := N) (c := 1)
          omega
      _ = d + N * 1 := Int.emod_eq_of_lt (by omega) (by omega)
      _ = d + N := by ring

/-- Shifting an integer already reduced mod `N` by one and reducing again is
reducing the shifted integer. -/
theorem emod_add_one (a N : Int) : (a % N + 1) % N = (a + 1) % N := by
  conv_lhs => rw [Int.add_emod]
  rw [Int.emod_emod_of_dvd _ (dvd_refl _), ← Int.add_emod]

theorem currentIndex_handleNextWrap (s : CarouselState)
    (h2 : 2 ≤ s.tableData.length)
    (h0 : 0 ≤ s.currentIndex) (hlt : s.currentIndex < (s.tableData.length : Int)) :
    (handleNextWrap s).currentIndex =
      (s.currentIndex + 1) % (s.tableData.length : Int) := by
  unfold handleNextWrap
  split_ifs with hle hinc
  · omega
  · have h : (updateCardClassesWrap
        { s with currentIndex := s.currentIndex + 1 }).currentIndex =
        s.currentIndex + 1 := rfl
    rw [h]
    exact (Int.emod_eq_of_lt (by omega) (by omega)).symm
  · have h : (updateCardClassesWrap { s with currentIndex := 0 }).currentIndex
        = 0 := rfl
    rw [h]
    have hc : s.currentIndex = (s.tableData.length : Int) - 1 := by omega
    rw [hc, show (s.tableData.length : Int) - 1 + 1 = (s.tableData.length : Int)
      from by ring, Int.emod_self]

theorem currentIndex_handlePreviousWrap (s : CarouselState)
    (h2 : 2 ≤ s.tableData.length) :
    (handlePreviousWrap s).currentIndex =
      if s.currentIndex > 0 then s.currentIndex - 1
      else (s.tableData.length : Int) - 1 := by
  unfold handlePreviousWrap
  split_ifs with hle hpos hpos
  · omega
  · omega
  · exact rfl
  · exact rfl

/-- After `k` iterations of the wrap variant's `handleNext` from a valid
state of length at least 2, the length is unchanged and the index is the
starting index advanced by `k`, modulo the length. -/
theorem handleNextWrap_iterate (s : CarouselState)
    (h2 : 2 ≤ s.tableData.length)
    (h0 : 0 ≤ s.currentIndex) (hlt : s.currentIndex < (s.tableData.length : Int)) :
    ∀ k : Nat,
      (handleNextWrap^[k] s).tableData.length = s.tableData.length ∧
      (handleNextWrap^[k] s).currentIndex =
        (s.currentIndex + (k : Int)) % (s.tableData.length : Int) := by
  intro k
  induction k with
  | zero => simpa using (Int.emod_eq_of_lt h0 hlt).symm
  | succ k ih =>
    obtain ⟨ihlen, ihidx⟩ := ih
    rw [Function.iterate_succ_apply']
    set t := handleNextWrap^[k] s with ht
    have hlen2 : 2 ≤ t.tableData.length := by omega
    have hidx0 : 0 ≤ t.currentIndex := by
      rw [ihidx]; exact Int.emod_nonneg _ (by omega)
    have hidxlt : t.currentIndex < (t.tableData.length : Int) := by
      rw [ihidx, ihlen]
      exact Int.emod_lt_of_pos _ (by omega)
    refine ⟨by rw [length_handleNextWrap, ihlen], ?_⟩
    rw [currentIndex_handleNextWrap t hlen2 hidx0 hidxlt, ihlen, ihidx, emod_add_one]
    congr 1
    push_cast
    ring

/-! ## Claim C1 -/

/-- C1: In the wrap-around carousel variant, for every non-empty card
sequence of length N and every valid starting index, applying `handleNext`
N times returns the current index to its starting value. -/
theorem c1_wrap_next_N_times_returns (s : CarouselState)
    (hne : s.tableData ≠ [])
    (h0 : 0 ≤ s.currentIndex)
    (hlt : s.currentIndex < (s.tableData.length : Int)) :
    (handleNextWrap^[s.tableData.length] s).currentIndex = s.currentIndex := by
  have hpos : 0 < s.tableData.length := List.length_pos.mpr hne
  rcases Nat.lt_or_ge s.tableData.length 2 with h1 | h2
  · have hfix : handleNextWrap s = s := by
      unfold handleNextWrap
      rw [if_pos (by exact_mod_cast Nat.le_of_lt_succ h1)]
    rw [Function.iterate_fixed hfix]
  · obtain ⟨-, hidx⟩ := handleNextWrap_iterate s h2 h0 hlt s.tableData.length
    rw [hidx,
      show s.currentIndex + (s.tableData.length : Int)
          = s.currentIndex + (s.tableData.length : Int) * 1 from by ring,
      Int.add_mul_emod_self_left]
    exact Int.emod_eq_of_lt h0 hlt

/-- Witness for C1 at the concrete three-card state with starting index 0. -/
theorem c1_witness :
    sampleState3.tableData ≠ [] ∧
      (handleNextWrap^[sampleState3.tableData.length] sampleState3).currentIndex
        = sampleState3.currentIndex :=
  ⟨by decide,
    c1_wrap_next_N_times_returns sampleState3 (by decide) (by decide) (by decide)⟩


/-! ## Claim C2 -/

/-- One user-visible operation on a carousel: a navigation click or the
card-replacing tail of a successful fetch. -/
inductive CarouselOp where
  | next : CarouselOp
  | prev : CarouselOp
  | setCards (cards : List Card) : CarouselOp
deriving Repr, DecidableEq

/-- Interpretation of a `CarouselOp` by the wrap-around variant. -/
def applyWrapOp : CarouselOp → CarouselState → CarouselState
  | .next, s => handleNextWrap s
  | .prev, s => handlePreviousWrap s
  | .setCards cards, s => setCardsWrap s cards

/-- Interpretation of a `CarouselOp` by the clamped variant. -/
def applyClampOp : CarouselOp → CarouselState → CarouselState
  | .next, s => handleNextClamp s
  | .prev, s => handlePreviousClamp s
  | .setCards cards, s => setCardsClamp s cards

/-- The index invariant of the spec's data model: `currentIndex` is
non-negative, and strictly below the length whenever the sequence is
non-empty. -/
def validIndex (s : CarouselState) : Prop :=
  0 ≤ s.currentIndex ∧
    (0 < s.tableData.length → s.currentIndex < (s.tableData.length : Int))

instance (s : CarouselState) : Decidable (validIndex s) := by
  unfold validIndex; infer_instance

theorem validIndex_updateCardClassesWrap (s : CarouselState) :
    validIndex (updateCardClassesWrap s) ↔ validIndex s := by
  simp [validIndex, updateCardClassesWrap]

theorem validIndex_updateCardClassesClamp (s : CarouselState) :
    validIndex (updateCardClassesClamp s) ↔ validIndex s := by
  simp [validIndex, updateCardClassesClamp]

theorem validIndex_handleNextWrap (s : CarouselState) (hv : validIndex s) :
    validIndex (handleNextWrap s) := by
  obtain ⟨h0, hlt⟩ := hv
  unfold handleNextWrap
  split_ifs with h1 h2
  · exact ⟨h0, hlt⟩
  all_goals
    rw [validIndex_updateCardClassesWrap]
    refine ⟨?_, fun hpos => ?_⟩ <;> simp_all <;> omega

theorem validIndex_handlePreviousWrap (s : CarouselState) (hv : validIndex s) :
    validIndex (handlePreviousWrap s) := by
  obtain ⟨h0, hlt⟩ := hv
  unfold handlePreviousWrap
  split_ifs with h1 h2
  · exact ⟨h0, hlt⟩
  all_goals
    rw [validIndex_updateCardClassesWrap]
    refine ⟨?_, fun hpos => ?_⟩ <;> simp_all <;> omega

theorem validIndex_setCardsWrap (s : CarouselState) (cards : List Card) :
    validIndex (setCardsWrap s cards) := by
  unfold setCardsWrap
  rw [validIndex_updateCardClassesWrap]
  refine ⟨?_, fun hpos => ?_⟩ <;> simp_all

theorem validIndex_handleNextClamp (s : CarouselState) (hv : validIndex s) :
    validIndex (handleNextClamp s) := by
  obtain ⟨h0, hlt⟩ := hv
  unfold handleNextClamp
  split_ifs with h1
  · rw [validIndex_updateCardClassesClamp]
    refine ⟨?_, fun hpos => ?_⟩ <;> simp_all <;> omega
  · exact ⟨h0, hlt⟩

theorem validIndex_handlePreviousClamp (s : CarouselState) (hv : validIndex s) :
    validIndex (handlePreviousClamp s) := by
  obtain ⟨h0, hlt⟩ := hv
  unfold handlePreviousClamp
  split_ifs with h1
  · rw [validIndex_updateCardClassesClamp]
    refine ⟨?_, fun hpos => ?_⟩ <;> simp_all <;> omega
  · exact ⟨h0, hlt⟩

theorem validIndex_setCardsClamp (s : CarouselState) (cards : List Card) :
    validIndex (setCardsClamp s cards) := by
  unfold setCardsClamp
  rw [validIndex_updateCardClassesClamp]
  refine ⟨?_, fun hpos => ?_⟩ <;> simp_all

/-- C2: the invariant `0 ≤ currentIndex < length` (for a non-empty sequence)
holds after every operation — card replacement after a fetch, `handleNext`,
`handlePrevious` — in both carousel variants: no operation starting from a
state satisfying the invariant ever produces an out-of-range index. -/
theorem c2_index_invariant_preserved (s : CarouselState) (op : CarouselOp)
    (hv : validIndex s) :
    validIndex (applyWrapOp op s) ∧ validIndex (applyClampOp op s) := by
  cases op with
  | next =>
    exact ⟨validIndex_handleNextWrap s hv, validIndex_handleNextClamp s hv⟩
  | prev =>
    exact ⟨validIndex_handlePreviousWrap s hv, validIndex_handlePreviousClamp s hv⟩
  | setCards cards =>
    exact ⟨validIndex_setCardsWrap s cards, validIndex_setCardsClamp s cards⟩

/-- Witness for C2: a `handleNext` click on the concrete three-card state. -/
theorem c2_witness :
    validIndex sampleState3 ∧
      validIndex (applyWrapOp .next sampleState3) ∧
      validIndex (applyClampOp .next sampleState3) := by
  refine ⟨by decide, ?_, ?_⟩
  · exact (c2_index_invariant_preserved sampleState3 .next (by decide)).1
  · exact (c2_index_invariant_preserved sampleState3 .next (by decide)).2

/-! ## Claim C3 -/

/-- C3: from every valid index, `handlePrevious` then `handleNext` (and vice
versa) returns the current index to its original value in the wrap-around
variant; in the clamped variant the same holds away from the boundary, while
at the boundary the clamped step is idempotent (the state is unchanged)
rather than an inverse. -/
theorem c3_prev_next_inverse (s : CarouselState)
    (h0 : 0 ≤ s.currentIndex)
    (hlt : s.currentIndex < (s.tableData.length : Int)) :
    ((handleNextWrap (handlePreviousWrap s)).currentIndex = s.currentIndex ∧
      (handlePreviousWrap (handleNextWrap s)).currentIndex = s.currentIndex) ∧
    (0 < s.currentIndex →
      (handleNextClamp (handlePreviousClamp s)).currentIndex = s.currentIndex) ∧
    (s.currentIndex = 0 → handlePreviousClamp s = s) ∧
    (s.currentIndex < (s.tableData.length : Int) - 1 →
      (handlePreviousClamp (handleNextClamp s)).currentIndex = s.currentIndex) ∧
    ((s.tableData.length : Int) - 1 ≤ s.currentIndex → handleNextClamp s = s) := by
  have hlen1 : 1 ≤ s.tableData.length := by
    by_contra h
    have : s.tableData.length = 0 := by omega
    rw [this] at hlt
    omega
  refine ⟨⟨?_, ?_⟩, ?_, ?_, ?_, ?_⟩
  · -- wrap: next (prev s) returns to the start
    rcases Nat.lt_or_ge s.tableData.length 2 with hsmall | h2
    · have hfixp : handlePreviousWrap s = s := by
        unfold handlePreviousWrap
        rw [if_pos (by exact_mod_cast Nat.le_of_lt_succ hsmall)]
      have hfixn : handleNextWrap s = s := by
        unfold handleNextWrap
        rw [if_pos (by exact_mod_cast Nat.le_of_lt_succ hsmall)]
      rw [hfixp, hfixn]
    · have hl := length_handlePreviousWrap s
      have hi := currentIndex_handlePreviousWrap s h2
      have h2t : 2 ≤ (handlePreviousWrap s).tableData.length := by omega
      have ht0 : 0 ≤ (handlePreviousWrap s).currentIndex := by
        rw [hi]; split_ifs <;> omega
      have htlt : (handlePreviousWrap s).currentIndex
          < ((handlePreviousWrap s).tableData.length : Int) := by
        rw [hi, hl]; split_ifs <;> omega
      rw [currentIndex_handleNextWrap _ h2t ht0 htlt, hi, hl]
      split_ifs with hpos
      · rw [show s.currentIndex - 1 + 1 = s.currentIndex from by ring]
        exact Int.emod_eq_of_lt h0 hlt
      · rw [show (s.tableData.length : Int) - 1 + 1 = (s.tableData.length : Int)
          from by ring, Int.emod_self]
        omega
  · -- wrap: prev (next s) returns to the start
    rcases Nat.lt_or_ge s.tableData.length 2 with hsmall | h2
    · have hfixp : handlePreviousWrap s = s := by
        unfold handlePreviousWrap
        rw [if_pos (by exact_mod_cast Nat.le_of_lt_succ hsmall)]
      have hfixn : handleNextWrap s = s := by
        unfold handleNextWrap
        rw [if_pos (by exact_mod_cast Nat.le_of_lt_succ hsmall)]
      rw [hfixn, hfixp]
    · have hl := length_handleNextWrap s
      have hi := currentIndex_handleNextWrap s h2 h0 hlt
      have ht : (handleNextWrap s).currentIndex =
          if s.currentIndex < (s.tableData.length : Int) - 1
          then s.currentIndex + 1 else 0 := by
        rw [hi]
        split_ifs with hcase
        · exact Int.emod_eq_of_lt (by omega) (by omega)
        · rw [show s.currentIndex = (s.tableData.length : Int) - 1 from by omega,
            show (s.tableData.length : Int) - 1 + 1 = (s.tableData.length : Int)
              from by ring, Int.emod_self]
      have h2t : 2 ≤ (handleNextWrap s).tableData.length := by omega
      rw [currentIndex_handlePreviousWrap _ h2t, ht, hl]
      split_ifs <;> omega
  · -- clamp: away from the left boundary, next (prev s) returns to the start
    intro hpos
    unfold handlePreviousClamp
    rw [if_pos hpos]
    unfold handleNextClamp
    rw [if_pos (by simp [updateCardClassesClamp]; omega)]
    simp [updateCardClassesClamp]
  · -- clamp: prev is idempotent at the left boundary
    intro hzero
    unfold handlePreviousClamp
    rw [if_neg (by omega)]
  · -- clamp: away from the right boundary, prev (next s) returns to the start
    intro hlt1
    unfold handleNextClamp
    rw [if_pos hlt1]
    unfold handlePreviousClamp
    rw [if_pos (by simp [updateCardClassesClamp]; omega)]
    simp [updateCardClassesClamp]
  · -- clamp: next is idempotent at the right boundary
    intro hge
    unfold handleNextClamp
    rw [if_neg (by omega)]

/-- Witness for C3 at the concrete three-card state with current index 1. -/
theorem c3_witness :
    (0 ≤ ({ sampleState3 with currentIndex := 1 } : CarouselState).currentIndex) ∧
      (handleNextWrap (handlePreviousWrap
          { sampleState3 with currentIndex := 1 })).currentIndex = 1 :=
  ⟨by decide,
    (c3_prev_next_inverse { sampleState3 with currentIndex := 1 }
      (by decide) (by decide)).1.1⟩

/-! ## Claims C4 and C5: display-class computation -/

/-- Modelled from the spec: the modular reference display-class for the
wrap-aware variant — the class of the card at index `i` is given by the
residue `(i - cur) % len`: residue 0 is active, 1 is middle, 2 is bottom,
every other residue is hidden. -/
def refClassWrap (len cur i : Int) : String :=
  if (i - cur) % len = 0 then "record-card card-active"
  else if (i - cur) % len = 1 then "record-card card-middle"
  else if (i - cur) % len = 2 then "record-card card-bottom"
  else "record-card card-hidden"

/-- Modelled from the spec: the clamped variant's reference display-class —
position `i - cur` of 0 is active, -1 is middle, -2 is bottom, every other
position is hidden. -/
def refClassClamp (cur i : Int) : String :=
  if i - cur = 0 then "record-card card-active"
  else if i - cur = -1 then "record-card card-middle"
  else if i - cur = -2 then "record-card card-bottom"
  else "record-card card-hidden"

/-- The wrap variant's special-cased class computation agrees with the
modular reference definition on every in-range pair of indices. -/
theorem cardClassWrap_eq_ref (len cur i : Int)
    (hc0 : 0 ≤ cur) (hc1 : cur < len) (hi0 : 0 ≤ i) (hi1 : i < len) :
    cardClassWrap len cur i = refClassWrap len cur i := by
  have hd := emod_of_small (i - cur) len (by omega) (by omega)
  simp only [cardClassWrap, refClassWrap]
  by_cases hnn : 0 ≤ i - cur
  · rw [if_pos hnn] at hd
    rw [hd]
    split_ifs <;> first | rfl | omega
  · rw [if_neg hnn] at hd
    rw [hd]
    split_ifs <;> first | rfl | omega

/-- The clamped variant's class computation agrees with its reference
definition everywhere. -/
theorem cardClassClamp_eq_ref (cur i : Int) :
    cardClassClamp cur i = refClassClamp cur i := by
  simp only [cardClassClamp, refClassClamp]
  split_ifs <;> rfl

/-- C4: in the wrap-around variant, for every non-empty sequence and valid
`currentIndex`, the display class `updateCardClasses` stores on the card at
index `i` equals the modular reference class of residue
`(i - currentIndex) % length`: 0 is active, 1 middle, 2 bottom, otherwise
hidden. -/
theorem c4_wrap_classes_modular (s : CarouselState)
    (h0 : 0 ≤ s.currentIndex)
    (hlt : s.currentIndex < (s.tableData.length : Int))
    (i : Nat) (hi : i < (updateCardClassesWrap s).tableData.length) :
    ((updateCardClassesWrap s).tableData[i]).cardClass =
      refClassWrap (s.tableData.length : Int) s.currentIndex (i : Int) := by
  have hi' : i < s.tableData.length := by
    rw [length_updateCardClassesWrap] at hi; exact hi
  simp only [updateCardClassesWrap, List.getElem_mapIdx]
  exact cardClassWrap_eq_ref _ _ _ h0 hlt (by positivity) (by exact_mod_cast hi')

/-- Witness for C4: the second card of the three-card state viewed from
index 1 is active. -/
theorem c4_witness :
    0 ≤ ({ sampleState3 with currentIndex := 1 } : CarouselState).currentIndex ∧
      ((updateCardClassesWrap
          { sampleState3 with currentIndex := 1 }).tableData.get ⟨1, by decide⟩).cardClass
        = refClassWrap 3 1 1 :=
  ⟨by decide,
    c4_wrap_classes_modular { sampleState3 with currentIndex := 1 }
      (by decide) (by decide) 1 (by decide)⟩

/-- C5: in the clamped variant, for every sequence and valid `currentIndex`,
the display class `updateCardClasses` stores on the card at index `i` is
determined by the position `i - currentIndex`: 0 is active, -1 middle,
-2 bottom, otherwise hidden; the stored position is `i - currentIndex`. -/
theorem c5_clamp_classes (s : CarouselState)
    (_h0 : 0 ≤ s.currentIndex)
    (_hlt : s.currentIndex < (s.tableData.length : Int))
    (i : Nat) (hi : i < (updateCardClassesClamp s).tableData.length) :
    ((updateCardClassesClamp s).tableData[i]).cardClass
        = refClassClamp s.currentIndex (i : Int) ∧
      ((updateCardClassesClamp s).tableData[i]).position
        = (i : Int) - s.currentIndex := by
  simp only [updateCardClassesClamp, List.getElem_mapIdx]
  exact ⟨cardClassClamp_eq_ref _ _, trivial⟩

/-- Witness for C5: the first card of the three-card state viewed from
index 2 sits two behind the active card. -/
theorem c5_witness :
    0 ≤ ({ sampleState3 with currentIndex := 2 } : CarouselState).currentIndex ∧
      ((updateCardClassesClamp
          { sampleState3 with currentIndex := 2 }).tableData.get ⟨0, by decide⟩).cardClass
        = refClassClamp 2 0 :=
  ⟨by decide,
    (c5_clamp_classes { sampleState3 with currentIndex := 2 }
      (by decide) (by decide) 0 (by decide)).1⟩

/-! ## Claim C6 -/

/-- The empty carousel state (the state after the `.catch` handlers, or
before any data arrives). -/
def emptyCarousel : CarouselState :=
  { tableData := [], error := none, currentIndex := 0 }

/-- C6: on an empty card sequence both variants' `handleNext` and
`handlePrevious` leave the state unchanged (so the current card stays
undefined); more generally `handleNext` (and the wrap variant's
`handlePrevious`) is a no-op whenever the sequence has at most one card. -/
theorem c6_short_sequence_noop (s : CarouselState) (h0 : 0 ≤ s.currentIndex) :
    (s.tableData.length ≤ 1 →
      handleNextWrap s = s ∧ handlePreviousWrap s = s ∧ handleNextClamp s = s) ∧
    (s.tableData = [] → s.currentIndex = 0 → handlePreviousClamp s = s) := by
  constructor
  · intro hlen
    refine ⟨?_, ?_, ?_⟩
    · unfold handleNextWrap
      rw [if_pos (by exact_mod_cast hlen)]
    · unfold handlePreviousWrap
      rw [if_pos (by exact_mod_cast hlen)]
    · unfold handleNextClamp
      rw [if_neg (by omega)]
  · intro hemp hidx
    unfold handlePreviousClamp
    rw [if_neg (by omega)]

/-- Witness for C6 at the empty state. -/
theorem c6_witness :
    0 ≤ emptyCarousel.currentIndex ∧
      emptyCarousel.tableData.length ≤ 1 ∧
      handleNextWrap emptyCarousel = emptyCarousel :=
  ⟨by decide, by decide,
    ((c6_short_sequence_noop emptyCarousel (by decide)).1 (by decide)).1⟩

/-! ## Claim C7 -/

/-- C7: replacing the card sequence after a successful fetch resets
`currentIndex` to 0 in the wrap-around variant and to the last element
(`max 0 (length - 1)`, hence 0 when empty) in the stack-from-top clamped
variant, and recomputes every card's display class at the new index. -/
theorem c7_setCards_resets_index (s : CarouselState) (cards : List Card) :
    (setCardsWrap s cards).currentIndex = 0 ∧
    (setCardsClamp s cards).currentIndex = max 0 ((cards.length : Int) - 1) ∧
    (setCardsWrap s cards).tableData.length = cards.length ∧
    (setCardsClamp s cards).tableData.length = cards.length ∧
    (∀ i, ∀ hi : i < (setCardsWrap s cards).tableData.length,
      ((setCardsWrap s cards).tableData[i]).cardClass
        = cardClassWrap (cards.length : Int) 0 (i : Int)) ∧
    (∀ i, ∀ hi : i < (setCardsClamp s cards).tableData.length,
      ((setCardsClamp s cards).tableData[i]).cardClass
        = cardClassClamp (max 0 ((cards.length : Int) - 1)) (i : Int)) := by
  refine ⟨rfl, rfl, by simp [setCardsWrap, updateCardClassesWrap],
    by simp [setCardsClamp, updateCardClassesClamp], ?_, ?_⟩
  · intro i hi
    simp only [setCardsWrap, updateCardClassesWrap, List.getElem_mapIdx]
  · intro i hi
    simp only [setCardsClamp, updateCardClassesClamp, List.getElem_mapIdx]

/-- Witness for C7: replacing the cards of the empty state by three cards. -/
theorem c7_witness :
    (setCardsWrap emptyCarousel sampleState3.tableData).currentIndex = 0 ∧
      ((setCardsWrap emptyCarousel
          sampleState3.tableData).tableData.get ⟨0, by decide⟩).cardClass
        = cardClassWrap 3 0 0 :=
  ⟨(c7_setCards_resets_index emptyCarousel sampleState3.tableData).1,
    (c7_setCards_resets_index emptyCarousel
      sampleState3.tableData).2.2.2.2.1 0 (by decide)⟩

/-! ## Claim C8 -/

/-- C8: every fetch failure leaves the component with its `error` field set
to some message string, an empty card sequence, and index 0, in both
carousel variants; the handlers schedule no retry (they are plain state
updates). -/
theorem c8_fetch_failure_surfaces_error (s t : CarouselState)
    (e : FetchErrorWrap) (f : FetchErrorClamp) :
    (fetchFailureWrap s e).error.isSome = true ∧
    (fetchFailureWrap s e).tableData = [] ∧
    (fetchFailureWrap s e).currentIndex = 0 ∧
    (fetchFailureClamp t f).error.isSome = true ∧
    (fetchFailureClamp t f).tableData = [] ∧
    (fetchFailureClamp t f).currentIndex = 0 :=
  ⟨rfl, rfl, rfl, rfl, rfl, rfl⟩

/-! ## Claim C9 -/

/-- C9: `updateCardClasses` in both variants preserves the length and order
of the card sequence and leaves each card's `Id`, `title`, `url`,
`fields` (and `score`) unchanged; the only per-card fields it writes are `cardClass`,
`position` and (in the wrap variant) `isActive` — in particular the clamped
variant also leaves `isActive` untouched. -/
theorem c9_updateCardClasses_frame (s : CarouselState) :
    (updateCardClassesWrap s).tableData.length = s.tableData.length ∧
    (updateCardClassesClamp s).tableData.length = s.tableData.length ∧
    (∀ i, ∀ hw : i < (updateCardClassesWrap s).tableData.length,
      ∀ hs : i < s.tableData.length,
      ((updateCardClassesWrap s).tableData[i]).Id = (s.tableData[i]).Id ∧
      ((updateCardClassesWrap s).tableData[i]).title = (s.tableData[i]).title ∧
      ((updateCardClassesWrap s).tableData[i]).url = (s.tableData[i]).url ∧
      ((updateCardClassesWrap s).tableData[i]).fields = (s.tableData[i]).fields ∧
      ((updateCardClassesWrap s).tableData[i]).score = (s.tableData[i]).score) ∧
    (∀ i, ∀ hc : i < (updateCardClassesClamp s).tableData.length,
      ∀ hs : i < s.tableData.length,
      ((updateCardClassesClamp s).tableData[i]).Id = (s.tableData[i]).Id ∧
      ((updateCardClassesClamp s).tableData[i]).title = (s.tableData[i]).title ∧
      ((updateCardClassesClamp s).tableData[i]).url = (s.tableData[i]).url ∧
      ((updateCardClassesClamp s).tableData[i]).fields = (s.tableData[i]).fields ∧
      ((updateCardClassesClamp s).tableData[i]).score = (s.tableData[i]).score ∧
      ((updateCardClassesClamp s).tableData[i]).isActive
        = (s.tableData[i]).isActive) := by
  refine ⟨length_updateCardClassesWrap s, length_updateCardClassesClamp s, ?_, ?_⟩
  · intro i hw hs
    simp only [updateCardClassesWrap, List.getElem_mapIdx]
    refine ⟨?_, ?_, ?_, ?_, ?_⟩ <;> trivial
  · intro i hc hs
    simp only [updateCardClassesClamp, List.getElem_mapIdx]
    refine ⟨?_, ?_, ?_, ?_, ?_, ?_⟩ <;> trivial

/-- Witness for C9: the first card of the three-card state keeps its
identity through the wrap variant's class recomputation. -/
theorem c9_witness :
    (updateCardClassesWrap sampleState3).tableData.length
        = sampleState3.tableData.length ∧
      ((updateCardClassesWrap sampleState3).tableData.get ⟨0, by decide⟩).Id
        = (sampleState3.tableData.get ⟨0, by decide⟩).Id :=
  ⟨(c9_updateCardClasses_frame sampleState3).1,
    ((c9_updateCardClasses_frame sampleState3).2.2.1 0 (by decide) (by decide)).1⟩

/-! ## `sqlResultsTable` (claim C10) -/

/-- One cell of a result row handed to the component:
`{ key, value }`, the value possibly null. -/
structure SqlCell where
  key : String
  value : Option String
deriving Repr, DecidableEq

/-- One row of the query result: `{ cells }`. -/
structure SqlRow where
  cells : List SqlCell
deriving Repr, DecidableEq

/-- The `@api value` input of `sqlResultsTable`: rows, column names and the
reported total row count. -/
structure SqlValue where
  rows : List SqlRow
  columns : List String
  totalRows : Nat
deriving Repr, DecidableEq

/-- One cell of `processedRows`, as built by `processTextData`. -/
structure ProcessedCell where
  key : String
  value : String
  fullValue : String
  displayValue : String
  isLink : Bool
deriving Repr, DecidableEq

/-- One entry of `processedRows`, as built by `processTextData`. -/
structure ProcessedRow where
  id : String
  displayIndex : Nat
  cells : List ProcessedCell
deriving Repr, DecidableEq

/-- The mutable state of `sqlResultsTable`: `@api value`,
`@track showTable`, `@track processedRows`, `@track displayedRowCount`. -/
structure SqlState where
  value : Option SqlValue
  showTable : Bool
  processedRows : List ProcessedRow
  displayedRowCount : Nat
deriving Repr, DecidableEq

/-- `MAX_DISPLAY_ROWS = 30`, the display limit for the chat window. -/
def MAX_DISPLAY_ROWS : Nat := 30

/-- `INITIAL_ROWS = 8`, the starting value of `displayedRowCount`. -/
def INITIAL_ROWS : Nat := 8

/-- `LOAD_MORE_INCREMENT = 6`, the step added by `loadMoreRows`. -/
def LOAD_MORE_INCREMENT : Nat := 6

/-- The `hasData` getter: the input is present and has at least one row. -/
def hasData (s : SqlState) : Bool :=
  match s.value with
  | some v => !v.rows.isEmpty
  | none => false

/-- The `totalRows` getter: `value?.totalRows || 0`. -/
def totalRows (s : SqlState) : Nat :=
  match s.value with
  | some v => v.totalRows
  | none => 0

section SqlOperations

/- The two string formatters of `sqlResultsTable`, `formatFieldName` and
`formatFieldValue`, abstracted as parameters: their humanization and
truncation of individual cell text is orthogonal to the row-count
behaviour under study and is quantified over. -/
variable (fmtName : String → String) (fmtValue : Option String → String)

/-- `processTextData`: when `hasData`, rebuild `processedRows` from the
first `displayedRowCount` rows of the input (`rows.slice(0, count).map`),
giving each row an `id`, a 1-based `displayIndex` and formatted cells;
otherwise leave the state unchanged. -/
def processTextData (s : SqlState) : SqlState :=
  match s.value with
  | some v =>
    if v.rows.isEmpty then s
    else
      { s with processedRows :=
          (v.rows.take s.displayedRowCount).mapIdx fun index row =>
            { id := "row-" ++ toString index
              displayIndex := index + 1
              cells := row.cells.map fun cell =>
                { key := fmtName cell.key
                  value := cell.value.getD ""
                  fullValue := cell.value.getD ""
                  displayValue := fmtValue cell.value
                  isLink := cell.key == "Record Page" &&
                    (match cell.value with
                      | some str => str.startsWith "http"
                      | none => false) } } }
  | none => s

/-- `loadMoreRows`: cap `displayedRowCount` at
`min (displayedRowCount + LOAD_MORE_INCREMENT) MAX_DISPLAY_ROWS totalRows`,
then rebuild the processed rows. -/
def loadMoreRows (s : SqlState) : SqlState :=
  let newCount : Nat :=
    min (min (s.displayedRowCount + LOAD_MORE_INCREMENT) MAX_DISPLAY_ROWS) (totalRows s)
  processTextData fmtName fmtValue { s with displayedRowCount := newCount }

/-- The component state at construction: `showTable = true`,
`processedRows = []`, `displayedRowCount = INITIAL_ROWS`. -/
def initialSqlState (v : Option SqlValue) : SqlState :=
  { value := v, showTable := true, processedRows := [], displayedRowCount := INITIAL_ROWS }

/-- `connectedCallback`: run `processTextData` on the initial state. -/
def connectedCallback (v : Option SqlValue) : SqlState :=
  processTextData fmtName fmtValue (initialSqlState v)

theorem value_processTextData (s : SqlState) :
    (processTextData fmtName fmtValue s).value = s.value := by
  rcases hv : s.value with - | v <;> simp only [processTextData, hv]
  split <;> first | exact hv | rfl

theorem displayedRowCount_processTextData (s : SqlState) :
    (processTextData fmtName fmtValue s).displayedRowCount
      = s.displayedRowCount := by
  rcases hv : s.value with - | v <;> simp only [processTextData, hv]
  split <;> rfl

theorem processedRows_length_processTextData (s : SqlState) :
    (processTextData fmtName fmtValue s).processedRows.length
        = s.processedRows.length ∨
      (processTextData fmtName fmtValue s).processedRows.length
        ≤ s.displayedRowCount := by
  rcases hv : s.value with - | v <;> simp only [processTextData, hv]
  · left; trivial
  · split
    · left; trivial
    · right
      simp [List.length_take]

theorem totalRows_loadMoreRows (s : SqlState) :
    totalRows (loadMoreRows fmtName fmtValue s) = totalRows s := by
  unfold totalRows loadMoreRows
  rw [value_processTextData]

end SqlOperations

theorem totalRows_set_count (s : SqlState) (x : Nat) :
    totalRows { s with displayedRowCount := x } = totalRows s := rfl

theorem loadMoreRows_count_bounds (fmtName : String → String)
    (fmtValue : Option String → String) (s : SqlState) :
    (loadMoreRows fmtName fmtValue s).displayedRowCount ≤ MAX_DISPLAY_ROWS ∧
      (loadMoreRows fmtName fmtValue s).displayedRowCount
        ≤ totalRows (loadMoreRows fmtName fmtValue s) := by
  have hv := totalRows_loadMoreRows fmtName fmtValue s
  unfold loadMoreRows at hv ⊢
  rw [displayedRowCount_processTextData]
  refine ⟨?_, ?_⟩
  · show min _ _ ≤ MAX_DISPLAY_ROWS
    omega
  · rw [hv]
    show min _ (totalRows s) ≤ totalRows s
    omega

theorem loadMoreRows_row_limit (fmtName : String → String)
    (fmtValue : Option String → String) (s : SqlState)
    (h1 : s.processedRows.length ≤ MAX_DISPLAY_ROWS) :
    (loadMoreRows fmtName fmtValue s).processedRows.length
      ≤ MAX_DISPLAY_ROWS := by
  have hcnt : ({ s with displayedRowCount := min (min (s.displayedRowCount + LOAD_MORE_INCREMENT) MAX_DISPLAY_ROWS) (totalRows s) } : SqlState).displayedRowCount = min (min (s.displayedRowCount + LOAD_MORE_INCREMENT) MAX_DISPLAY_ROWS) (totalRows s) := rfl
  have hrows : ({ s with displayedRowCount := min (min (s.displayedRowCount + LOAD_MORE_INCREMENT) MAX_DISPLAY_ROWS) (totalRows s) } : SqlState).processedRows.length = s.processedRows.length := rfl
  unfold loadMoreRows
  show (processTextData fmtName fmtValue { s with displayedRowCount := min (min (s.displayedRowCount + LOAD_MORE_INCREMENT) MAX_DISPLAY_ROWS) (totalRows s) }).processedRows.length ≤ MAX_DISPLAY_ROWS
  rcases processedRows_length_processTextData fmtName fmtValue { s with displayedRowCount := min (min (s.displayedRowCount + LOAD_MORE_INCREMENT) MAX_DISPLAY_ROWS) (totalRows s) } with h | h
  · rw [h, hrows]
    exact h1
  · rw [hcnt] at h
    refine le_trans h ?_
    omega

theorem connectedCallback_row_limit (fmtName : String → String)
    (fmtValue : Option String → String) (v : Option SqlValue) :
    (connectedCallback fmtName fmtValue v).processedRows.length
      ≤ MAX_DISPLAY_ROWS := by
  unfold connectedCallback
  rcases processedRows_length_processTextData fmtName fmtValue
      (initialSqlState v) with h | h
  · rw [h]
    show (0 : Nat) ≤ MAX_DISPLAY_ROWS
    omega
  · refine le_trans h ?_
    show INITIAL_ROWS ≤ MAX_DISPLAY_ROWS
    unfold INITIAL_ROWS MAX_DISPLAY_ROWS
    omega

/-- C10: in `sqlResultsTable`, after every call to `loadMoreRows` the
`displayedRowCount` is at most `MAX_DISPLAY_ROWS` (30) and at most the
input's `totalRows`; and for every input value and every number of
`loadMoreRows` calls, `processedRows` never holds more than 30 rows. -/
theorem c10_display_row_bounds (fmtName : String → String)
    (fmtValue : Option String → String) (v : Option SqlValue) (n : Nat) :
    ((loadMoreRows fmtName fmtValue)^[n]
        (connectedCallback fmtName fmtValue v)).processedRows.length
      ≤ MAX_DISPLAY_ROWS ∧
    (1 ≤ n →
      ((loadMoreRows fmtName fmtValue)^[n]
          (connectedCallback fmtName fmtValue v)).displayedRowCount
        ≤ MAX_DISPLAY_ROWS ∧
      ((loadMoreRows fmtName fmtValue)^[n]
          (connectedCallback fmtName fmtValue v)).displayedRowCount
        ≤ totalRows ((loadMoreRows fmtName fmtValue)^[n]
            (connectedCallback fmtName fmtValue v))) := by
  constructor
  · induction n with
    | zero => simpa using connectedCallback_row_limit fmtName fmtValue v
    | succ n ih =>
      rw [Function.iterate_succ_apply']
      exact loadMoreRows_row_limit fmtName fmtValue _ ih
  · intro hn
    obtain ⟨m, rfl⟩ : ∃ m, n = m + 1 := ⟨n - 1, by omega⟩
    rw [Function.iterate_succ_apply']
    exact loadMoreRows_count_bounds fmtName fmtValue _

/-- Witness for C10: one `loadMoreRows` click on an input reporting two
rows. -/
theorem c10_witness :
    (1 : Nat) ≤ 1 ∧
      ((loadMoreRows id (fun v => v.getD "N/A"))^[1]
          (connectedCallback id (fun v => v.getD "N/A")
            (some { rows := [{ cells := [] }, { cells := [] }]
                    columns := []
                    totalRows := 2 }))).displayedRowCount ≤ MAX_DISPLAY_ROWS :=
  ⟨by decide,
    ((c10_display_row_bounds id (fun v => v.getD "N/A")
      (some { rows := [{ cells := [] }, { cells := [] }]
              columns := []
              totalRows := 2 }) 1).2 (by decide)).1⟩
